import Mathlib

/-!
Verification development for the WaveAI repository (app.py, tools.py,
worker.py).  The definitions below are a shallow embedding of the Python
source: pure logic is translated to Lean functions, external effects
(HTTP, Gmail, the two databases) are threaded through explicit
environment and state records.  Doc comments cite the source file and
line ranges each definition embeds.
-/

/-! ## Calendar datetimes (Python `datetime`) -/

/-- Minute-precision datetime, as produced by
`datetime.strptime(s, "%Y-%m-%d %H:%M")` in tools.py line 128. -/
structure DateTime where
  year : Nat
  month : Nat
  day : Nat
  hour : Nat
  minute : Nat
deriving DecidableEq, Repr

/-- Mixed-radix key giving the chronological (lexicographic) order of
`DateTime` values; the radix for the minute digit is 60, so adding
`n < 60` minutes within the same hour adds `n` to the key. -/
def DateTime.key (d : DateTime) : Nat :=
  (((d.year * 13 + d.month) * 32 + d.day) * 24 + d.hour) * 60 + d.minute

/-- Gregorian leap-year test, as in Python `calendar`/`datetime`. -/
def isLeapYear (y : Nat) : Bool :=
  (y % 4 == 0 && y % 100 != 0) || (y % 400 == 0)

/-- Number of days of month `m` of year `y` (Python `datetime` validation). -/
def daysInMonth (y m : Nat) : Nat :=
  if m == 2 then (if isLeapYear y then 29 else 28)
  else if m == 4 || m == 6 || m == 9 || m == 11 then 30
  else 31

/-! ## `datetime.strptime(s, "%Y-%m-%d %H:%M")`

CPython compiles this format to the regex
`(?P<Y>\d\d\d\d)-(?P<m>1[0-2]|0[1-9]|[1-9])-(?P<d>3[01]|[12]\d|0[1-9]|[1-9])\s+(?P<H>2[0-3]|[0-1]\d|\d):(?P<M>[0-5]\d|\d)`
which must consume the whole input, and then builds
`datetime(Y, m, d, H, M)`, which additionally validates `1 <= Y` and
`d <= daysInMonth Y m`; any failure raises `ValueError` (modelled as
`none`). -/

/-- Leading run of ASCII digits of a character list, with the rest. -/
def takeDigits : List Char → (List Char × List Char)
  | [] => ([], [])
  | c :: cs =>
    if c.isDigit then
      let p := takeDigits cs
      (c :: p.1, p.2)
    else ([], c :: cs)

/-- Decimal value of a digit run. -/
def digitsToNat (ds : List Char) : Nat :=
  ds.foldl (fun acc c => acc * 10 + (c.toNat - 48)) 0

/-- Python `\s` character class: space, tab, newline, carriage return,
vertical tab, form feed. -/
def isPySpace (c : Char) : Bool :=
  c == ' ' || c == '\t' || c == '\n' || c == '\r' || c == '\x0b' || c == '\x0c'

/-- Drop a (possibly empty) run of `\s` characters. -/
def dropPySpaces : List Char → List Char
  | [] => []
  | c :: cs => if isPySpace c then dropPySpaces cs else c :: cs

/-- Match `\s+` (one or more whitespace characters) and return the rest. -/
def matchSpaces1 : List Char → Option (List Char)
  | [] => none
  | c :: cs => if isPySpace c then some (dropPySpaces cs) else none

/-- A one-or-two-digit numeric field of the strptime regex: the digit run
`ds` matches with value `v` in `[lo, hi]`; a single `"0"` is accepted only
when `lo = 0` (the `%m`/`%d` alternations have no bare-zero branch, the
`%H`/`%M` ones do). -/
def fieldOk (ds : List Char) (lo hi : Nat) : Bool :=
  (ds.length == 1 || ds.length == 2) &&
    lo ≤ digitsToNat ds && digitsToNat ds ≤ hi

/-- Embedding of `datetime.strptime(scheduled_date_str, '%Y-%m-%d %H:%M')`
(tools.py line 128): `none` is the `ValueError` outcome. -/
def strptimeYmdHm (s : String) : Option DateTime :=
  let p0 := takeDigits s.data
  if p0.1.length ≠ 4 then none else
  let y := digitsToNat p0.1
  match p0.2 with
  | '-' :: r1 =>
    let p1 := takeDigits r1
    if !(fieldOk p1.1 1 12) then none else
    let m := digitsToNat p1.1
    match p1.2 with
    | '-' :: r2 =>
      let p2 := takeDigits r2
      if !(fieldOk p2.1 1 31) then none else
      let d := digitsToNat p2.1
      match matchSpaces1 p2.2 with
      | none => none
      | some r3 =>
        let p3 := takeDigits r3
        if !(fieldOk p3.1 0 23) then none else
        let hh := digitsToNat p3.1
        match p3.2 with
        | ':' :: r4 =>
          let p4 := takeDigits r4
          if !(fieldOk p4.1 0 59) then none else
          let mi := digitsToNat p4.1
          match p4.2 with
          | [] =>
            if 1 ≤ y && d ≤ daysInMonth y m then
              some ⟨y, m, d, hh, mi⟩
            else none
          | _ => none
        | _ => none
    | _ => none
  | _ => none

/-! ## tools.py — the email-alert tool

The tool path (tools.py, via app.py) talks to PostgreSQL through
`DATABASE_URL` (tools.py lines 43-62) and to Gmail through
`load_gmail_credentials` / `build('gmail', 'v1', ...)`.  The worker
(worker.py line 24) opens the *separate* SQLite file `waveai.db`.
`ToolsWorld` therefore carries both stores, plus the list of emails
actually handed to the Gmail send endpoint. -/

/-- One row of a `scheduled_tasks` table
(`id, recipient, subject, body, scheduled_date, status`). -/
structure ScheduledTask where
  id : Nat
  recipient : String
  subject : String
  body : String
  scheduledDate : DateTime
  status : String
deriving DecidableEq, Repr

/-- The durable state visible to the tool path and the worker: the
PostgreSQL `scheduled_tasks` table (written by tools.py / app.py), the
SQLite `waveai.db` `scheduled_tasks` table (read and written by
worker.py), and the emails submitted to the Gmail API. -/
structure ToolsWorld where
  pgTasks : List ScheduledTask
  sqliteTasks : List ScheduledTask
  sentEmails : List (String × String × String)
deriving DecidableEq, Repr

/-- Outcome of one `service.users().messages().send(...).execute()` call:
success, or a raised exception that the specification classifies as
transient (e.g. timeout, HTTP 5xx) or terminal (e.g. permanently invalid
recipient).  worker.py's `except Exception` at line 58 catches both
failure kinds without distinguishing them. -/
inductive SendOutcome where
  | success
  | transientFailure (msg : String)
  | terminalFailure (msg : String)
deriving DecidableEq, Repr

/-- Read-only environment of the tool path: the wall clock
(`datetime.now()`) and whether `load_gmail_credentials()` yields usable
credentials. -/
structure ToolsEnv where
  now : DateTime
  gmailCreds : Bool
deriving DecidableEq, Repr

/-- The `except ValueError` message of tools.py line 156. -/
def dateFormatError (ds : String) : String :=
  "Erreur: Le format de la date doit être \x27YYYY-MM-DD HH:MM\x27. Vous avez fourni : " ++ ds

/-- The `except Exception` message of tools.py line 159. -/
def dbInternalError : String :=
  "Erreur interne: Impossible d\x27enregistrer la tâche dans la base de données. Veuillez vérifier la connexion DB."

/-- Embedding of `schedule_email_alert` (tools.py lines 113-159).

Control flow of the source body:
* line 128 parses `scheduled_date_str`; a parse failure raises
  `ValueError`, caught at line 154, returning the date-format error with
  no side effect;
* on a successful parse, line 132 evaluates
  `datetime.now() + timezone.timedelta(minutes=5)`.  `timezone` is the
  class `datetime.timezone` (imported at tools.py line 12), which has no
  attribute `timedelta`, so this raises `AttributeError`, which is not a
  `ValueError` and falls to the `except Exception` handler at line 157.
  The synchronous-send call at line 133, and the
  `INSERT INTO scheduled_tasks ... VALUES (..., 'pending')` at lines
  140-149, are therefore unreachable: every well-formed date returns the
  internal-error string and leaves the world unchanged. -/
def schedule_email_alert (env : ToolsEnv) (w : ToolsWorld)
    (recipient_email subject body scheduled_date_str : String) :
    String × ToolsWorld :=
  match strptimeYmdHm scheduled_date_str with
  | none => (dateFormatError scheduled_date_str, w)
  | some _scheduled => (dbInternalError, w)

/-- Outcome of the Gmail send attempted by `send_email_immediate`
(tools.py line 185), supplied by the environment. -/
inductive GmailSendAttempt where
  | ok
  | httpError (status : Nat) (msg : String)
  | otherError (exnName msg : String)
deriving DecidableEq, Repr

/-- Embedding of `send_email_immediate` (tools.py lines 162-201).  Note
that in the source this function is only called from the unreachable
synchronous branch of `schedule_email_alert`; it is embedded for
completeness of the tool layer. -/
def send_email_immediate (env : ToolsEnv) (attempt : GmailSendAttempt)
    (w : ToolsWorld) (recipient subject body : String) : String × ToolsWorld :=
  if !env.gmailCreds then
    ("Échec de l\x27envoi: Les jetons d\x27authentification Gmail sont invalides ou manquants. L\x27utilisateur doit se réauthentifier via la console (fichier token_gmail.json).", w)
  else
    match attempt with
    | GmailSendAttempt.ok =>
      ("L\x27e-mail a été envoyé avec succès immédiatement.",
        { w with sentEmails := w.sentEmails ++ [(recipient, subject, body)] })
    | GmailSendAttempt.httpError status msg =>
      ("Échec de l\x27envoi: Erreur de l\x27API Gmail (Code " ++ toString status ++ "): "
          ++ msg ++ ". Vérifiez le destinataire et le statut de votre jeton Gmail.", w)
    | GmailSendAttempt.otherError exnName msg =>
      ("Échec de l\x27envoi: Erreur inattendue (" ++ exnName ++ "): " ++ msg
          ++ ". Vérifiez les logs.", w)

/-- Names registered in `AVAILABLE_TOOLS` (tools.py lines 255-260). -/
def AVAILABLE_TOOLS : List String :=
  ["schedule_email_alert", "find_linkedin_contact"]

/-! ## worker.py — the scheduled-task worker

worker.py line 9 does `from tools import get_gmail_service, create_message`;
tools.py defines neither name (it defines `load_gmail_credentials` and
`create_message_base64`), so loading the module raises `ImportError` in the
source as shipped.  The body of `process_scheduled_tasks`
(worker.py lines 18-67) is embedded below with the Gmail service obtained
from the environment, following the intent of the import at line 9 and
the call at line 37. -/

/-- Environment of one worker pass: the wall clock (`datetime.now()`,
worker.py line 28), whether `get_gmail_service()` returns a usable
(truthy) service (line 37), and the outcome of the Gmail send for each
task id (line 51). -/
structure WorkerEnv where
  now : DateTime
  gmailServiceOk : Bool
  send : Nat → SendOutcome

/-- The due-task query of worker.py line 29:
`SELECT ... FROM scheduled_tasks WHERE status = 'pending' AND scheduled_date <= now`,
run against the SQLite store `waveai.db`.  (The SQL compares the stored
value with `datetime.now().isoformat()` textually; for ISO-formatted
timestamps that coincides with chronological order, modelled by
`DateTime.key`.) -/
def dueTasks (env : WorkerEnv) (w : ToolsWorld) : List ScheduledTask :=
  w.sqliteTasks.filter
    (fun t => t.status == "pending" && decide (t.scheduledDate.key ≤ env.now.key))

/-- The SQL `UPDATE scheduled_tasks SET status = s WHERE id = i`
(worker.py lines 54 and 60). -/
def updateStatus (i : Nat) (s : String) (ts : List ScheduledTask) :
    List ScheduledTask :=
  ts.map (fun t => if t.id = i then { t with status := s } else t)

/-- One iteration of the per-task loop (worker.py lines 43-61): attempt
the Gmail send for task `t`; on success set its status to `'sent'`
(line 54); on ANY raised exception — the `except Exception` at line 58
catches transient and terminal failures alike — set it to `'failed'`
(line 60). -/
def applySend (env : WorkerEnv) (acc : List ScheduledTask)
    (t : ScheduledTask) : List ScheduledTask :=
  match env.send t.id with
  | SendOutcome.success => updateStatus t.id "sent" acc
  | SendOutcome.transientFailure _ => updateStatus t.id "failed" acc
  | SendOutcome.terminalFailure _ => updateStatus t.id "failed" acc

/-- Status that the loop body assigns to a task with id `i` once its send
is attempted. -/
def sendStatus (env : WorkerEnv) (i : Nat) : String :=
  match env.send i with
  | SendOutcome.success => "sent"
  | SendOutcome.transientFailure _ => "failed"
  | SendOutcome.terminalFailure _ => "failed"

/-- Embedding of `process_scheduled_tasks` (worker.py lines 18-67).
Returns the updated world together with the ids of the tasks whose Gmail
send was attempted.  The function:
* queries the SQLite store for due `'pending'` rows (line 29);
* returns unchanged if there are none (lines 32-35) or if no Gmail
  service is available (lines 37-41);
* otherwise sends each due task and updates its status row by row
  (lines 43-61).  Only `sqliteTasks` is ever read or written: the
  PostgreSQL store that tools.py / app.py use is a different database. -/
def process_scheduled_tasks (env : WorkerEnv) (w : ToolsWorld) :
    ToolsWorld × List Nat :=
  let tasks := dueTasks env w
  if tasks.isEmpty then (w, [])
  else if !env.gmailServiceOk then (w, [])
  else
    ({ w with sqliteTasks := tasks.foldl (applySend env) w.sqliteTasks },
      tasks.map (fun t => t.id))

/-! ## app.py — credential resolution and the agent orchestrator -/

/-- One row of the PostgreSQL `api_keys` table
(app.py lines 83-92). -/
structure ApiKeyRecord where
  provider : String
  api_key : String
  is_active : Bool
deriving DecidableEq, Repr

/-- A model-requested function call: `candidate['functionCall']` with its
`name` and `args` fields (app.py lines 357-359).  `args` is the
string-keyed argument mapping `dict(function_call['args'])`. -/
structure FunctionCall where
  name : String
  args : List (String × String)
deriving DecidableEq, Repr

/-- One part of a candidate content: `parts[i].get('text')`
(app.py lines 392, 417). -/
structure RespPart where
  text : Option String
deriving DecidableEq, Repr

/-- One candidate of a parsed Gemini response (app.py line 353): the
top-level `functionCall` key the code tests at line 356, and the
`content.parts` list it reads at lines 391 and 416. -/
structure Candidate where
  functionCall : Option FunctionCall
  contentParts : Option (List RespPart)
deriving DecidableEq, Repr

/-- Parsed JSON body and status of one `requests.post` to the Gemini
endpoint: HTTP status, `candidates`, `promptFeedback.blockReason`
(app.py line 433) and `error.message` (line 348). -/
structure HttpResp where
  status : Nat
  candidates : List Candidate
  blockReason : Option String
  errorMessage : Option String
deriving DecidableEq, Repr

/-- One entry of the `contents` conversation list sent to Gemini:
a role plus either a text part, a `functionCall` part, or a
`functionResponse` part (app.py lines 320, 329, 372-379). -/
inductive TurnParts where
  | text (s : String)
  | functionCall (fc : FunctionCall)
  | functionResponse (name result : String)
deriving DecidableEq, Repr

/-- A conversation turn (`role` + `parts`). -/
structure Turn where
  role : String
  parts : TurnParts
deriving DecidableEq, Repr

/-- Static definition of one agent persona (app.py lines 281-284,
471-497). -/
structure AgentDef where
  name : String
  role : String
  personality : String
deriving DecidableEq, Repr

/-- Environment of one `generate_response` request: the
`GEMINI_API_KEY` environment variable, the `api_keys` table (`none`
models a database error, whose handler returns `None` at
app.py line 165), the outcomes of the two `requests.post` calls
(`Except.error e` models the call raising an exception with text `e`),
the current UTC time injected into Alex's prompt (line 304), and the
tool-layer environment and durable state. -/
structure AppEnv where
  geminiEnvKey : Option String
  apiKeysDb : Option (List ApiKeyRecord)
  resp1 : Except String HttpResp
  resp2 : Except String HttpResp
  nowUtc : DateTime
  toolsEnv : ToolsEnv
  toolsWorld : ToolsWorld

/-- Embedding of `APIManager.get_api_key` (app.py lines 147-165): for
provider `'gemini'`, a truthy `GEMINI_API_KEY` environment variable wins;
otherwise the first active row of the `api_keys` table; `None` on a
missing row or a database error. -/
def get_api_key (env : AppEnv) (provider : String) : Option String :=
  let envStep : Option String :=
    if provider = "gemini" then
      match env.geminiEnvKey with
      | some k => if k = "" then none else some k
      | none => none
    else none
  match envStep with
  | some k => some k
  | none =>
    match env.apiKeysDb with
    | none => none
    | some rows =>
      match rows.find? (fun r => r.provider == provider && r.is_active) with
      | some r => some r.api_key
      | none => none

/-- The per-persona canned strings of `_fallback_response`
(app.py lines 446-452), selected by `self.name.lower()` with `'kai'` as
the default. -/
def cannedFallback (nameLower : String) : String :=
  if nameLower = "alex" then
    "Je suis Alex. Mon accès à l\x27IA est désactivé. Veuillez configurer l\x27API Gemini pour débloquer mes conseils de productivité."
  else if nameLower = "lina" then
    "Je suis Lina. Je ne peux pas analyser votre situation sans l\x27API Gemini. Configurez la clé pour commencer à travailler !"
  else if nameLower = "marco" then
    "Je suis Marco. Je suis en mode démo. Configurer la clé Gemini me permettra de générer des idées créatives."
  else if nameLower = "sofia" then
    "Je suis Sofia. Mon planning est en attente. Veuillez configurer l\x27API Gemini pour optimiser votre organisation."
  else
    "Je suis Kai, votre assistant IA. Pour que je puisse vous aider, veuillez configurer la clé API Gemini dans les paramètres."

/-- The response record returned by `generate_response`
(success at lines 394-401 / 419-426, fallback at lines 458-464). -/
structure AgentResponse where
  agent : String
  response : String
  provider : String
  success : Bool
  updated_history : List Turn
deriving DecidableEq, Repr

/-- Embedding of `AIAgent._fallback_response` (app.py lines 444-464): a
persona-specific canned string with the reason appended, `success` set
to `False`, and — unconditionally — `updated_history` set to the empty
list (line 463). -/
def fallback_response (agent : AgentDef) (error_msg : Option String) :
    AgentResponse :=
  let reason :=
    match error_msg with
    | none => "Clé API Gemini non configurée."
    | some m => "Erreur API: " ++ m
  { agent := agent.name
    response := cannedFallback agent.name.toLower ++ " (" ++ reason ++ ")"
    provider := "Mode Démo (Gemini non configuré)"
    success := false
    updated_history := [] }

/-- The provider string of a successful response (app.py line 397):
`f'Google Gemini ({GEMINI_MODEL.split("-")[-1]})'` with
`GEMINI_MODEL = "gemini-2.5-flash"`. -/
def geminiProvider : String := "Google Gemini (flash)"

/-- Zero-padded two-digit decimal (strftime field). -/
def pad2 (n : Nat) : String :=
  if n < 10 then "0" ++ toString n else toString n

/-- `strftime("%Y-%m-%d %H:%M")` of app.py line 304 (years of interest
have four digits). -/
def fmtYmdHm (d : DateTime) : String :=
  toString d.year ++ "-" ++ pad2 d.month ++ "-" ++ pad2 d.day ++ " "
    ++ pad2 d.hour ++ ":" ++ pad2 d.minute

/-- The system instruction of app.py lines 295-315: the base persona
prompt, plus the scheduling instructions with the current UTC time when
the agent name lowercases to `'alex'`. -/
def systemInstruction (env : AppEnv) (agent : AgentDef) : String :=
  let base :=
    "Tu es " ++ agent.name ++ ", " ++ agent.role ++ ".\nPersonnalité: "
      ++ agent.personality
      ++ "\nRéponds de manière naturelle et personnalisée selon ton rôle.\nGarde tes réponses concises et utiles (maximum 150 mots).\nUtilise les fonctions disponibles si elles sont pertinentes pour répondre à la demande de l\x27utilisateur."
  if agent.name.toLower = "alex" then
    base
      ++ "\nInstructions spécifiques pour la planification: \nSi l\x27utilisateur te demande d\x27envoyer un e-mail \x27maintenant\x27 ou \x27immédiatement\x27, \ntu **DOIS** utiliser la date et l\x27heure actuelle pour l\x27argument \x27scheduled_date_str\x27 de la fonction \x27schedule_email_alert\x27.\nDate et Heure Actuelles (UTC): **"
      ++ fmtYmdHm env.nowUtc
      ++ "** (Format: YYYY-MM-DD HH:MM).\nTu **NE DOIS PAS** demander cette information à l\x27utilisateur si elle est manquante. Utilise "
      ++ fmtYmdHm env.nowUtc ++ " immédiatement.\n"
  else base

/-- The conversation list of app.py lines 320-329: the system
instruction as a user turn, then the caller-supplied history (each entry
assumed to carry `role` and `parts`, the well-formedness the filter at
line 325 checks), then the current user message. -/
def buildConversation (env : AppEnv) (agent : AgentDef) (message : String)
    (history : List Turn) : List Turn :=
  Turn.mk "user" (TurnParts.text (systemInstruction env agent))
    :: history ++ [Turn.mk "user" (TurnParts.text message)]

/-- First value bound to key `k` in an argument mapping. -/
def lookupArg (args : List (String × String)) (k : String) : Option String :=
  (args.find? (fun p => p.1 == k)).map (fun p => p.2)

/-- Keyword binding of `tool_function(**args)` against
`schedule_email_alert(recipient_email, subject, body, scheduled_date_str)`
(tools.py line 113): all four parameters are required and no other
keyword is accepted; a mismatch raises `TypeError` inside the `try` of
app.py line 367 (modelled as `none`). -/
def bindScheduleArgs (args : List (String × String)) :
    Option (String × String × String × String) :=
  if args.all (fun p =>
      (["recipient_email", "subject", "body", "scheduled_date_str"] : List String).contains p.1) then
    match lookupArg args "recipient_email", lookupArg args "subject",
        lookupArg args "body", lookupArg args "scheduled_date_str" with
    | some r, some s, some b, some d => some (r, s, b, d)
    | _, _, _, _ => none
  else none

/-- Keyword binding against the `find_linkedin_contact` lambda
`lambda name, role="": ...` (tools.py line 259): `name` required,
`role` optional with default `""`. -/
def bindLinkedinArgs (args : List (String × String)) :
    Option (String × String) :=
  if args.all (fun p => (["name", "role"] : List String).contains p.1) then
    match lookupArg args "name" with
    | some n => some (n, (lookupArg args "role").getD "")
    | none => none
  else none

/-- Embedding of `tool_function = AVAILABLE_TOOLS[function_name];
function_result = tool_function(**args)` (app.py lines 365-368) for the
two registered tools (tools.py lines 255-260).  `Except.error` models the
call raising (here: a `TypeError` from keyword binding; the embedded
`schedule_email_alert` itself catches all its exceptions and the
`find_linkedin_contact` lambda is pure).  The exception text of a Python
`TypeError` is abstracted to a fixed string. -/
def callTool (env : AppEnv) (name : String) (args : List (String × String)) :
    Except String (String × ToolsWorld) :=
  if name = "schedule_email_alert" then
    match bindScheduleArgs args with
    | some (r, s, b, d) =>
      Except.ok (schedule_email_alert env.toolsEnv env.toolsWorld r s b d)
    | none => Except.error "TypeError: arguments invalides"
  else if name = "find_linkedin_contact" then
    match bindLinkedinArgs args with
    | some (n, ro) =>
      Except.ok ("Recherche LinkedIn pour " ++ n ++ " (" ++ ro ++ ") en cours...", env.toolsWorld)
    | none => Except.error "TypeError: arguments invalides"
  else Except.error "outil non enregistré"

/-- Extraction of the generated text from a candidate (app.py lines
391-393 and 416-418): `candidate['content']['parts'][0].get('text')`,
where a missing key, an empty parts list, or falsy (empty) text all fall
through. -/
def candidateText (cand : Candidate) : Option String :=
  match cand.contentParts with
  | none => none
  | some parts =>
    match parts.head? with
    | none => none
    | some p =>
      match p.text with
      | none => none
      | some t => if t = "" then none else some t

/-- The non-200 error message of app.py line 348:
`response.json().get('error', {}).get('message', f'Erreur Gemini non détaillée: {status}')`. -/
def httpErrMsg (r : HttpResp) : String :=
  (r.errorMessage).getD ("Erreur Gemini non détaillée: " ++ toString r.status)

/-- The blocked/empty-response message of app.py lines 429-434. -/
def blockedMsg (r : HttpResp) : String :=
  "Réponse Gemini bloquée ou vide. Réessayez avec une autre formulation."
    ++ (match r.blockReason with
        | some b => " (Raison: " ++ b ++ ")"
        | none => "")

/-- The message of app.py line 405, used for every failure of the second
completion round. -/
def finalFailMsg (name : String) : String :=
  "Échec de l\x27obtention de la réponse finale après l\x27exécution de l\x27outil " ++ name ++ "."

/-- The message of app.py line 409: `f"Erreur interne de l'outil
{function_name}: {str(tool_e)}"`, issued by the `except` that wraps the
tool execution AND the second completion call (lines 367-409). -/
def toolErrMsg (name e : String) : String :=
  "Erreur interne de l\x27outil " ++ name ++ ": " ++ e

/-- A `generate_response` outcome: the response record, the number of
`requests.post` calls issued to the Gemini endpoint, the number of
`tool_function(**args)` invocations, and the resulting durable state. -/
structure GenOutcome where
  resp : AgentResponse
  upstreamCalls : Nat
  toolInvocations : Nat
  world : ToolsWorld
deriving DecidableEq, Repr

/-- Embedding of the tool round of `generate_response`
(app.py lines 356-413), entered when the first candidate carries a
`functionCall`:
* an unregistered name returns the `introuvable` fallback without
  invoking anything (lines 411-413);
* otherwise the tool is invoked once; if it raises, the fallback of
  line 409 is returned without a second completion call;
* otherwise the tool-call and tool-result turns are appended and the
  second `requests.post` is issued (lines 372-384); a 200 response with
  non-empty text yields the success record (lines 386-401), anything
  else the fallback of line 405; the second call raising is caught by
  the same `except` as a tool error (line 407). -/
def toolRound (env : AppEnv) (agent : AgentDef) (conv : List Turn)
    (fc : FunctionCall) : GenOutcome :=
  if AVAILABLE_TOOLS.contains fc.name then
    match callTool env fc.name fc.args with
    | Except.error e =>
      ⟨fallback_response agent (some (toolErrMsg fc.name e)), 1, 1, env.toolsWorld⟩
    | Except.ok (result, world2) =>
      let conv2 := conv ++
        [Turn.mk "model" (TurnParts.functionCall fc),
         Turn.mk "function" (TurnParts.functionResponse fc.name result)]
      match env.resp2 with
      | Except.error e =>
        ⟨fallback_response agent (some (toolErrMsg fc.name e)), 2, 1, world2⟩
      | Except.ok r2 =>
        if r2.status = 200 then
          match r2.candidates.head? with
          | some c2 =>
            (match candidateText c2 with
             | some t =>
               ⟨{ agent := agent.name, response := t.trim,
                  provider := geminiProvider, success := true,
                  updated_history := conv2 }, 2, 1, world2⟩
             | none =>
               ⟨fallback_response agent (some (finalFailMsg fc.name)), 2, 1, world2⟩)
          | none =>
            ⟨fallback_response agent (some (finalFailMsg fc.name)), 2, 1, world2⟩
        else
          ⟨fallback_response agent (some (finalFailMsg fc.name)), 2, 1, world2⟩
  else
    ⟨fallback_response agent (some ("L\x27outil " ++ fc.name ++ " est introuvable.")), 1, 0, env.toolsWorld⟩

/-- Embedding of `AIAgent.generate_response` (app.py lines 287-441):
* resolve the Gemini key; a falsy key returns the no-reason fallback
  with no upstream call (lines 290-292);
* build the conversation and issue the first `requests.post`
  (lines 320-345); the call raising is caught by the outer `except` at
  line 439;
* a non-200 status returns the fallback with the provider error
  (lines 347-350);
* a first candidate carrying `functionCall` enters the tool round
  (lines 356-413);
* otherwise non-empty candidate text yields the success record
  (lines 416-426), and anything else the blocked/empty fallback
  (lines 429-437). -/
def generate_response (env : AppEnv) (agent : AgentDef) (message : String)
    (history : List Turn) : GenOutcome :=
  match get_api_key env "gemini" with
  | none => ⟨fallback_response agent none, 0, 0, env.toolsWorld⟩
  | some apiKey =>
    if apiKey = "" then ⟨fallback_response agent none, 0, 0, env.toolsWorld⟩
    else
      let conv := buildConversation env agent message history
      match env.resp1 with
      | Except.error e =>
        ⟨fallback_response agent (some e), 1, 0, env.toolsWorld⟩
      | Except.ok r1 =>
        if r1.status = 200 then
          match r1.candidates.head? with
          | some cand =>
            (match cand.functionCall with
             | some fc => toolRound env agent conv fc
             | none =>
               match candidateText cand with
               | some t =>
                 ⟨{ agent := agent.name, response := t.trim,
                    provider := geminiProvider, success := true,
                    updated_history := conv }, 1, 0, env.toolsWorld⟩
               | none =>
                 ⟨fallback_response agent (some (blockedMsg r1)), 1, 0, env.toolsWorld⟩)
          | none =>
            ⟨fallback_response agent (some (blockedMsg r1)), 1, 0, env.toolsWorld⟩
        else
          ⟨fallback_response agent (some (httpErrMsg r1)), 1, 0, env.toolsWorld⟩

/-- Truthiness of the resolved key at app.py line 291
(`if not api_key`). -/
def keyPresent (env : AppEnv) : Bool :=
  match get_api_key env "gemini" with
  | none => false
  | some k => !(k == "")

/-- The `functionCall` the first completion round hands to the tool
dispatch (app.py lines 345-357): defined when the first `requests.post`
returns, with status 200, and its first candidate carries a
`functionCall` key. -/
def firstCandFunctionCall (env : AppEnv) : Option FunctionCall :=
  match env.resp1 with
  | Except.error _ => none
  | Except.ok r1 =>
    if r1.status = 200 then
      match r1.candidates.head? with
      | some c => c.functionCall
      | none => none
    else none

/-- Whether `tool_function(**args)` is reached (app.py line 368): a key
is resolved, the first round returns a `functionCall`, and its name is
registered in `AVAILABLE_TOOLS` (line 363). -/
def firstRoundToolInvoked (env : AppEnv) : Bool :=
  keyPresent env &&
    (match firstCandFunctionCall env with
     | some fc => AVAILABLE_TOOLS.contains fc.name
     | none => false)

/-- Whether an `Except` is a success. -/
def exceptIsOk {ε α : Type} : Except ε α → Bool
  | Except.ok _ => true
  | Except.error _ => false

/-- Whether the tool round reaches the second `requests.post`
(app.py line 384): the tool is invoked and its execution does not
raise. -/
def firstRoundToolOk (env : AppEnv) : Bool :=
  keyPresent env &&
    (match firstCandFunctionCall env with
     | some fc =>
       AVAILABLE_TOOLS.contains fc.name && exceptIsOk (callTool env fc.name fc.args)
     | none => false)

/-- The `'kai'` persona of app.py lines 492-496. -/
def kaiAgent : AgentDef :=
  ⟨"Kai", "Assistant conversationnel général", "Amical, curieux et adaptable."⟩

/-- The `'alex'` persona of app.py lines 472-476. -/
def alexAgent : AgentDef :=
  ⟨"Alex", "Assistant productivité et gestion", "Expert en organisation, efficace et méthodique."⟩

/-- The empty durable state: both `scheduled_tasks` tables empty, no
email submitted to Gmail. -/
def worldEmpty : ToolsWorld := ⟨[], [], []⟩

/-! ## Theorems -/

/-- C1: the round-trip claimed for the shared Task Ledger cannot occur in
this code: `schedule_email_alert` never writes a row to either
`scheduled_tasks` store (its insert is dead code behind the
`timezone.timedelta` AttributeError), and `process_scheduled_tasks` never
reads or writes the PostgreSQL store that the web-server tool path uses —
it operates on the separate SQLite file `waveai.db`.  So no task written
by the tool is ever picked up, and no status of the tool-side store ever
transitions. -/
theorem worker_and_tool_share_no_ledger :
    (∀ (env : ToolsEnv) (w : ToolsWorld) (r s b ds : String),
        ((schedule_email_alert env w r s b ds).2).pgTasks = w.pgTasks ∧
        ((schedule_email_alert env w r s b ds).2).sqliteTasks = w.sqliteTasks) ∧
    (∀ (env : WorkerEnv) (w : ToolsWorld),
        ((process_scheduled_tasks env w).1).pgTasks = w.pgTasks) := by
  constructor
  · intro env w r s b ds
    unfold schedule_email_alert
    cases strptimeYmdHm ds <;> exact ⟨rfl, rfl⟩
  · intro env w
    unfold process_scheduled_tasks
    cases h1 : (dueTasks env w).isEmpty <;> cases h2 : env.gmailServiceOk <;>
      simp [h1, h2]

/-- Concrete tool environment for the far-future scheduling call: the
clock reads 2026-10-12 10:00 and Gmail credentials are available. -/
def toolsEnvC2 : ToolsEnv := ⟨⟨2026, 10, 12, 10, 0⟩, true⟩

/-- C2: a call with the well-formed date `"2099-01-01 10:00"`, far beyond
the five-minute grace window of the clock `2026-10-12 10:00`, does NOT
insert a `'pending'` row and does NOT return a deferred-confirmation
string: it returns the generic internal-error string and leaves the
durable state untouched, because the grace-window expression
`datetime.now() + timezone.timedelta(minutes=5)` raises AttributeError
into the generic handler. -/
theorem schedule_far_future_internal_error :
    strptimeYmdHm "2099-01-01 10:00" = some ⟨2099, 1, 1, 10, 0⟩ ∧
    toolsEnvC2.now.key + 5 < (DateTime.key ⟨2099, 1, 1, 10, 0⟩) ∧
    schedule_email_alert toolsEnvC2 worldEmpty
        "bob@example.com" "Bonjour" "Salut" "2099-01-01 10:00"
      = (dbInternalError, worldEmpty) :=
  ⟨by decide, by decide, by decide⟩

/-- Concrete tool environment for the boundary call: the clock reads
2026-11-03 09:30. -/
def toolsEnvC4 : ToolsEnv := ⟨⟨2026, 11, 3, 9, 30⟩, true⟩

/-- C4: a call whose target `"2026-11-03 09:35"` is exactly the clock
`2026-11-03 09:30` plus the five-minute grace window does NOT take the
synchronous-send path (no email is sent, the success string of
`send_email_immediate` is not returned): the grace-window expression
raises AttributeError and the call returns the generic internal-error
string with the durable state untouched.  (Independently, the source
comparison at tools.py line 132 is the strict `<`, so even with the
intended `timedelta` the exact boundary would take the deferred path,
not the synchronous one.) -/
theorem schedule_boundary_internal_error :
    strptimeYmdHm "2026-11-03 09:35" = some ⟨2026, 11, 3, 9, 35⟩ ∧
    DateTime.key ⟨2026, 11, 3, 9, 35⟩ = toolsEnvC4.now.key + 5 ∧
    schedule_email_alert toolsEnvC4 worldEmpty
        "bob@example.com" "Rappel" "Texte" "2026-11-03 09:35"
      = (dbInternalError, worldEmpty) :=
  ⟨by decide, by decide, by decide⟩

/-- C10: for every date string the `strptime` of tools.py line 128
rejects, `schedule_email_alert` returns the date-format error string and
performs no side effect: both task stores and the sent-email list are
returned exactly as given. -/
theorem bad_date_format_no_side_effect (env : ToolsEnv) (w : ToolsWorld)
    (recipient subject body ds : String)
    (h : strptimeYmdHm ds = none) :
    schedule_email_alert env w recipient subject body ds
      = (dateFormatError ds, w) := by
  unfold schedule_email_alert
  rw [h]

/-- Witness for C10 at the unparsable input `"pas-une-date"`. -/
theorem bad_date_format_no_side_effect_witness :
    schedule_email_alert toolsEnvC2 worldEmpty
        "bob@example.com" "Sujet" "Corps" "pas-une-date"
      = (dateFormatError "pas-une-date", worldEmpty) :=
  bad_date_format_no_side_effect toolsEnvC2 worldEmpty
    "bob@example.com" "Sujet" "Corps" "pas-une-date" (by decide)

/-- C6: when the resolved Gemini credential is absent,
`generate_response` returns the canned fallback with `success = false`
and issues zero `requests.post` calls to the completion provider. -/
theorem no_credential_fallback_no_call (env : AppEnv) (agent : AgentDef)
    (message : String) (history : List Turn)
    (h : get_api_key env "gemini" = none) :
    (generate_response env agent message history).resp
        = fallback_response agent none ∧
    (generate_response env agent message history).resp.success = false ∧
    (generate_response env agent message history).upstreamCalls = 0 := by
  unfold generate_response
  rw [h]
  exact ⟨rfl, rfl, rfl⟩

/-- Environment with no Gemini credential: no environment variable and
an empty `api_keys` table. -/
def envNoKey : AppEnv :=
  { geminiEnvKey := none
    apiKeysDb := some []
    resp1 := Except.error "non atteint"
    resp2 := Except.error "non atteint"
    nowUtc := ⟨2026, 10, 12, 10, 0⟩
    toolsEnv := toolsEnvC2
    toolsWorld := worldEmpty }

/-- Witness for C6 in the credential-less environment. -/
theorem no_credential_fallback_no_call_witness :
    (generate_response envNoKey kaiAgent "bonjour" []).resp
        = fallback_response kaiAgent none ∧
    (generate_response envNoKey kaiAgent "bonjour" []).resp.success = false ∧
    (generate_response envNoKey kaiAgent "bonjour" []).upstreamCalls = 0 :=
  no_credential_fallback_no_call envNoKey kaiAgent "bonjour" [] rfl

/-- Every outcome of the tool round is either a `_fallback_response`
record (whose `updated_history` is `[]`) or has `success = true` (there
is no third shape of return value in app.py lines 356-413). -/
theorem toolRound_shape (env : AppEnv) (agent : AgentDef) (conv : List Turn)
    (fc : FunctionCall) :
    (toolRound env agent conv fc).resp.updated_history = [] ∨
    (toolRound env agent conv fc).resp.success = true := by
  unfold toolRound
  repeat' split
  all_goals first
    | exact Or.inr rfl
    | exact Or.inl rfl

/-- Every outcome of `generate_response` is either a
`_fallback_response` record (whose `updated_history` is `[]`) or has
`success = true`. -/
theorem generate_response_shape (env : AppEnv) (agent : AgentDef)
    (message : String) (history : List Turn) :
    (generate_response env agent message history).resp.updated_history = [] ∨
    (generate_response env agent message history).resp.success = true := by
  unfold generate_response
  repeat' split
  all_goals first
    | exact Or.inr rfl
    | exact Or.inl rfl
    | exact toolRound_shape _ _ _ _

/-- C9: whenever `generate_response` terminates in a degraded-mode reply
(`success = false`), the `updated_history` it returns is the empty list —
`_fallback_response` hard-codes `updated_history: []` at app.py line 463,
so the caller-supplied prior turns are dropped. -/
theorem fallback_returns_empty_history (env : AppEnv) (agent : AgentDef)
    (message : String) (history : List Turn)
    (h : (generate_response env agent message history).resp.success = false) :
    (generate_response env agent message history).resp.updated_history = [] := by
  rcases generate_response_shape env agent message history with he | hs
  · exact he
  · rw [h] at hs
    cases hs

/-- Witness for C9: in the credential-less environment, a request
carrying a non-empty prior history gets `success = false` and an empty
`updated_history` back. -/
theorem fallback_returns_empty_history_witness :
    (generate_response envNoKey kaiAgent "salut"
        [Turn.mk "user" (TurnParts.text "tour précédent")]).resp.updated_history = [] :=
  fallback_returns_empty_history envNoKey kaiAgent "salut"
    [Turn.mk "user" (TurnParts.text "tour précédent")] rfl

/-- C7: a first-round completion that requests a tool whose name is not
in `AVAILABLE_TOOLS` terminates the request with the fallback response
naming the unknown tool, after exactly one upstream call and zero tool
invocations — no retry, no tool execution (app.py lines 411-413). -/
theorem unknown_tool_fallback (env : AppEnv) (agent : AgentDef)
    (message : String) (history : List Turn) (k : String) (r1 : HttpResp)
    (cand : Candidate) (fc : FunctionCall)
    (hk : get_api_key env "gemini" = some k) (hk2 : k ≠ "")
    (hr : env.resp1 = Except.ok r1) (hs : r1.status = 200)
    (hc : r1.candidates.head? = some cand)
    (hfc : cand.functionCall = some fc)
    (hunk : AVAILABLE_TOOLS.contains fc.name = false) :
    generate_response env agent message history =
      ⟨fallback_response agent
          (some ("L\x27outil " ++ fc.name ++ " est introuvable.")),
        1, 0, env.toolsWorld⟩ := by
  have hunk2 : fc.name ∉ AVAILABLE_TOOLS := by
    simpa using hunk
  unfold generate_response toolRound
  rw [hk]
  simp [hk2, hr, hs, hc, hfc, hunk2]

/-- Environment whose first completion round requests the unregistered
tool `outil_mystere`. -/
def envUnknownTool : AppEnv :=
  { geminiEnvKey := some "cle-test"
    apiKeysDb := some []
    resp1 := Except.ok
      { status := 200
        candidates := [{ functionCall := some ⟨"outil_mystere", []⟩, contentParts := none }]
        blockReason := none
        errorMessage := none }
    resp2 := Except.error "non atteint"
    nowUtc := ⟨2026, 10, 12, 10, 0⟩
    toolsEnv := toolsEnvC2
    toolsWorld := worldEmpty }

/-- Witness for C7 at the `outil_mystere` request. -/
theorem unknown_tool_fallback_witness :
    generate_response envUnknownTool kaiAgent "message" [] =
      ⟨fallback_response kaiAgent
          (some ("L\x27outil " ++ "outil_mystere" ++ " est introuvable.")),
        1, 0, envUnknownTool.toolsWorld⟩ :=
  unknown_tool_fallback envUnknownTool kaiAgent "message" [] "cle-test" _ _
    ⟨"outil_mystere", []⟩ rfl (by decide) rfl rfl rfl rfl (by decide)

/-- Environment whose first completion round requests the unregistered
tool `outil_fantome`: a tool call was returned, yet only one upstream
call will be made and no tool invoked. -/
def envC5 : AppEnv :=
  { geminiEnvKey := some "cle-c5"
    apiKeysDb := none
    resp1 := Except.ok
      { status := 200
        candidates := [{ functionCall := some ⟨"outil_fantome", []⟩, contentParts := none }]
        blockReason := none
        errorMessage := none }
    resp2 := Except.ok
      { status := 200, candidates := [], blockReason := none, errorMessage := none }
    nowUtc := ⟨2026, 10, 12, 10, 0⟩
    toolsEnv := toolsEnvC2
    toolsWorld := worldEmpty }

/-- C5 counterexample: the first completion returns a tool call
(`firstCandFunctionCall` is `some`), yet the request is NOT handled with
exactly two upstream calls and one tool invocation — the unregistered
name terminates the round after a single upstream call with zero tool
invocations. -/
theorem one_tool_round_claim_cex :
    (firstCandFunctionCall envC5).isSome = true ∧
    ¬ ((generate_response envC5 kaiAgent "bonjour" []).upstreamCalls = 2 ∧
       (generate_response envC5 kaiAgent "bonjour" []).toolInvocations = 1) ∧
    (generate_response envC5 kaiAgent "bonjour" []).upstreamCalls = 1 ∧
    (generate_response envC5 kaiAgent "bonjour" []).toolInvocations = 0 := by
  refine ⟨rfl, ?_, rfl, rfl⟩
  intro h
  cases h.1.symm.trans (rfl : (generate_response envC5 kaiAgent "bonjour" []).upstreamCalls = 1)

/-- C5 (amended): per inbound message the control loop performs zero or
one tool round-trip — never more than two upstream calls nor more than
one tool invocation; the tool is invoked exactly once iff the first
completion returns a call to a registered tool, and exactly two upstream
calls are made iff additionally the tool executes without raising.  (An
unknown tool name or a raising tool terminates the round early, with one
upstream call.) -/
theorem generate_response_round_counts (env : AppEnv) (agent : AgentDef)
    (message : String) (history : List Turn) :
    (generate_response env agent message history).upstreamCalls ≤ 2 ∧
    (generate_response env agent message history).toolInvocations ≤ 1 ∧
    ((generate_response env agent message history).toolInvocations = 1
        ↔ firstRoundToolInvoked env = true) ∧
    ((generate_response env agent message history).upstreamCalls = 2
        ↔ firstRoundToolOk env = true) := by
  unfold generate_response firstRoundToolInvoked firstRoundToolOk keyPresent
    firstCandFunctionCall
  cases hk : get_api_key env "gemini" with
  | none => simp
  | some k =>
    by_cases hke : k = ""
    · simp [hke]
    · simp only [hke, if_false, Bool.not_eq_true']
      cases hr : env.resp1 with
      | error e => simp [hke]
      | ok r1 =>
        by_cases hs : r1.status = 200
        · simp only [hs, if_true]
          cases hc : r1.candidates.head? with
          | none => simp [hke]
          | some cand =>
            simp only [hc]
            cases hfc : cand.functionCall with
            | none =>
              cases ht : candidateText cand <;> simp [hfc, ht, hke]
            | some fc =>
              simp only [hfc]
              unfold toolRound
              by_cases hreg : fc.name ∈ AVAILABLE_TOOLS
              · have hregb : AVAILABLE_TOOLS.contains fc.name = true := by
                  simpa using hreg
                simp only [hregb, if_true]
                cases hct : callTool env fc.name fc.args with
                | error e => simp [hke, hreg, exceptIsOk, hct]
                | ok pr =>
                  obtain ⟨result, world2⟩ := pr
                  cases hr2 : env.resp2 with
                  | error e2 => simp [hke, hreg, exceptIsOk, hct, hr2]
                  | ok r2 =>
                    by_cases hs2 : r2.status = 200
                    · simp only [hr2, hs2, if_true]
                      cases hc2 : r2.candidates.head? with
                      | none => simp [hke, hreg, exceptIsOk, hct]
                      | some c2 =>
                        cases ht2 : candidateText c2 <;>
                          simp [hke, hreg, exceptIsOk, hct, hc2, ht2]
                    · simp [hke, hreg, exceptIsOk, hct, hr2, hs2]
              · have hregb : AVAILABLE_TOOLS.contains fc.name = false := by
                  simpa using hreg
                simp [hke, hreg, hregb]
        · simp [hke, hs]

/-- A task whose id differs from the updated id passes through the SQL
`UPDATE ... WHERE id = i` untouched. -/
theorem mem_updateStatus_of_ne {t : ScheduledTask} {ts : List ScheduledTask}
    (h : t ∈ ts) {i : Nat} (hne : t.id ≠ i) (s : String) :
    t ∈ updateStatus i s ts := by
  unfold updateStatus
  refine List.mem_map.mpr ⟨t, h, ?_⟩
  simp [hne]

/-- A task whose id differs from the processed task's id passes through
one loop iteration untouched. -/
theorem mem_applySend_of_ne {env : WorkerEnv} {t u : ScheduledTask}
    {acc : List ScheduledTask} (h : t ∈ acc) (hne : t.id ≠ u.id) :
    t ∈ applySend env acc u := by
  unfold applySend
  cases env.send u.id <;> exact mem_updateStatus_of_ne h hne _

/-- A task whose id matches no processed task passes through the whole
loop untouched. -/
theorem mem_foldl_applySend {env : WorkerEnv} {t : ScheduledTask} :
    ∀ (ds acc : List ScheduledTask), t ∈ acc → (∀ u ∈ ds, t.id ≠ u.id) →
      t ∈ ds.foldl (applySend env) acc := by
  intro ds
  induction ds with
  | nil => intro acc h _; exact h
  | cons d ds ih =>
    intro acc h hds
    simp only [List.foldl_cons]
    exact ih _ (mem_applySend_of_ne h (hds d (by simp)))
      (fun u hu => hds u (by simp [hu]))

/-- After `UPDATE ... SET status = s WHERE id = i`, every row with id `i`
has status `s`. -/
theorem updateStatus_status {i : Nat} {s : String} {ts : List ScheduledTask}
    {u : ScheduledTask} (hu : u ∈ updateStatus i s ts) (hid : u.id = i) :
    u.status = s := by
  unfold updateStatus at hu
  rcases List.mem_map.mp hu with ⟨b, hb, hfb⟩
  by_cases h : b.id = i
  · rw [if_pos h] at hfb
    rw [← hfb]
  · rw [if_neg h] at hfb
    rw [← hfb] at hid
    exact absurd hid h

/-- The property "every row with id `i` has status `s`" is preserved by
an update whose id differs from `i` or whose status is `s` itself. -/
theorem updateStatus_preserves {i : Nat} {s : String} {j : Nat} {s2 : String}
    {ts : List ScheduledTask} (h : ∀ u ∈ ts, u.id = i → u.status = s)
    (hcase : j ≠ i ∨ s2 = s) :
    ∀ u ∈ updateStatus j s2 ts, u.id = i → u.status = s := by
  intro u hu hui
  rcases hcase with hne | hs2
  · unfold updateStatus at hu
    rcases List.mem_map.mp hu with ⟨b, hb, hfb⟩
    by_cases hbj : b.id = j
    · rw [if_pos hbj] at hfb
      rw [← hfb] at hui
      exact absurd (hui ▸ hbj : i = j).symm hne
    · rw [if_neg hbj] at hfb
      exact h u (hfb ▸ hb) hui
  · unfold updateStatus at hu
    rcases List.mem_map.mp hu with ⟨b, hb, hfb⟩
    by_cases hbj : b.id = j
    · rw [if_pos hbj] at hfb
      rw [← hfb]
      exact hs2
    · rw [if_neg hbj] at hfb
      exact h u (hfb ▸ hb) hui

/-- The property "every row with id `i` has the status the loop body
would assign to id `i`" is preserved by one loop iteration. -/
theorem applySend_preserves {env : WorkerEnv} {i : Nat}
    {ts : List ScheduledTask} (d : ScheduledTask)
    (h : ∀ u ∈ ts, u.id = i → u.status = sendStatus env i) :
    ∀ u ∈ applySend env ts d, u.id = i → u.status = sendStatus env i := by
  unfold applySend
  by_cases hdi : d.id = i
  · cases hsend : env.send d.id <;>
      · refine updateStatus_preserves h (Or.inr ?_)
        rw [hdi] at hsend
        simp [sendStatus, hsend]
  · cases hsend : env.send d.id <;>
      exact updateStatus_preserves h (Or.inl hdi)

/-- The property of `applySend_preserves` is preserved by the whole
loop. -/
theorem foldl_applySend_preserves {env : WorkerEnv} {i : Nat} :
    ∀ (ds ts : List ScheduledTask),
      (∀ u ∈ ts, u.id = i → u.status = sendStatus env i) →
      ∀ u ∈ ds.foldl (applySend env) ts, u.id = i → u.status = sendStatus env i := by
  intro ds
  induction ds with
  | nil => intro ts h; exact h
  | cons d ds ih =>
    intro ts h
    simp only [List.foldl_cons]
    exact ih _ (applySend_preserves d h)

/-- After one loop iteration for task `d`, every row with `d`'s id has
the status the loop body assigns for that id. -/
theorem applySend_sets {env : WorkerEnv} {ts : List ScheduledTask}
    (d : ScheduledTask) :
    ∀ u ∈ applySend env ts d, u.id = d.id → u.status = sendStatus env d.id := by
  intro u hu hui
  unfold applySend at hu
  cases hsend : env.send d.id <;> rw [hsend] at hu <;>
    · rw [updateStatus_status hu hui]
      simp [sendStatus, hsend]

/-- After the loop has processed a task `d` among its rows, every row
with `d`'s id carries the status the loop body assigns for that id:
`'sent'` on success, `'failed'` on any raised send failure. -/
theorem foldl_applySend_status {env : WorkerEnv} :
    ∀ (ds ts : List ScheduledTask) (d : ScheduledTask), d ∈ ds →
      ∀ u ∈ ds.foldl (applySend env) ts, u.id = d.id →
        u.status = sendStatus env d.id := by
  intro ds
  induction ds with
  | nil => intro ts d hd; cases hd
  | cons a ds ih =>
    intro ts d hd
    simp only [List.foldl_cons]
    rcases List.mem_cons.mp hd with rfl | hd2
    · exact foldl_applySend_preserves ds _ (applySend_sets d)
    · exact ih _ d hd2

/-- An id present among the rows stays present through one update. -/
theorem exists_id_updateStatus {i j : Nat} {s : String}
    {ts : List ScheduledTask} (h : ∃ u ∈ ts, u.id = i) :
    ∃ u ∈ updateStatus j s ts, u.id = i := by
  rcases h with ⟨u, hu, hui⟩
  unfold updateStatus
  by_cases huj : u.id = j
  · exact ⟨{ u with status := s }, List.mem_map.mpr ⟨u, hu, by simp [huj]⟩, hui⟩
  · exact ⟨u, List.mem_map.mpr ⟨u, hu, by simp [huj]⟩, hui⟩

/-- An id present among the rows stays present through one loop
iteration. -/
theorem exists_id_applySend {env : WorkerEnv} {i : Nat}
    {ts : List ScheduledTask} (d : ScheduledTask) (h : ∃ u ∈ ts, u.id = i) :
    ∃ u ∈ applySend env ts d, u.id = i := by
  unfold applySend
  cases env.send d.id <;> exact exists_id_updateStatus h

/-- An id present among the rows stays present through the whole loop. -/
theorem exists_id_foldl_applySend {env : WorkerEnv} {i : Nat} :
    ∀ (ds ts : List ScheduledTask), (∃ u ∈ ts, u.id = i) →
      ∃ u ∈ ds.foldl (applySend env) ts, u.id = i := by
  intro ds
  induction ds with
  | nil => intro ts h; exact h
  | cons d ds ih =>
    intro ts h
    simp only [List.foldl_cons]
    exact ih _ (exists_id_applySend d h)

/-- A due pending task whose Gmail send raises a transient failure. -/
def taskC3 : ScheduledTask :=
  ⟨7, "bob@exemple.fr", "Relance", "Texte", ⟨2026, 10, 10, 9, 0⟩, "pending"⟩

/-- Worker environment whose clock is past `taskC3`'s target time and
whose Gmail send raises a transient network timeout for every task. -/
def envC3 : WorkerEnv :=
  ⟨⟨2026, 10, 12, 10, 0⟩, true, fun _ => SendOutcome.transientFailure "Timeout réseau"⟩

/-- SQLite store holding only `taskC3`. -/
def worldC3 : ToolsWorld := ⟨[], [taskC3], []⟩

/-- C3 counterexample: a due `'pending'` task whose send fails with a
failure classified as transient does NOT stay `'pending'` — the worker
pass leaves it with status `'failed'`, because the `except Exception` at
worker.py line 58 marks every failure `'failed'` (line 60). -/
theorem worker_transient_marked_failed_cex :
    envC3.send taskC3.id = SendOutcome.transientFailure "Timeout réseau" ∧
    taskC3 ∈ dueTasks envC3 worldC3 ∧
    (process_scheduled_tasks envC3 worldC3).1.sqliteTasks
      = [{ taskC3 with status := "failed" }] :=
  ⟨rfl, by decide, by decide⟩

/-- C3 (amended): for every due `'pending'` task processed with an
available Gmail service, ANY send failure — transient or terminal alike —
leaves the row with status `'failed'`; the worker has no
transient/terminal classification and never retains `'pending'` for a
task whose send was attempted and failed. -/
theorem worker_any_failure_marks_failed (env : WorkerEnv) (w : ToolsWorld)
    (t : ScheduledTask)
    (hdue : t ∈ dueTasks env w)
    (hsvc : env.gmailServiceOk = true)
    (hfail : env.send t.id ≠ SendOutcome.success) :
    (∃ u ∈ (process_scheduled_tasks env w).1.sqliteTasks, u.id = t.id) ∧
    ∀ u ∈ (process_scheduled_tasks env w).1.sqliteTasks, u.id = t.id →
      u.status = "failed" := by
  have hne : (dueTasks env w).isEmpty = false := by
    cases hdt : dueTasks env w with
    | nil => rw [hdt] at hdue; cases hdue
    | cons a l => rfl
  have hfs : sendStatus env t.id = "failed" := by
    unfold sendStatus
    cases hsend : env.send t.id with
    | success => exact absurd hsend hfail
    | transientFailure m => rfl
    | terminalFailure m => rfl
  have hmem : t ∈ w.sqliteTasks := (List.mem_filter.mp hdue).1
  unfold process_scheduled_tasks
  simp only [hne, hsvc, Bool.not_true, Bool.false_eq_true, if_false]
  constructor
  · exact exists_id_foldl_applySend _ _ ⟨t, hmem, rfl⟩
  · intro u hu hui
    exact hfs ▸ foldl_applySend_status _ _ t hdue u hu hui

/-- Witness for C3's amended theorem at the transient-failure data. -/
theorem worker_any_failure_marks_failed_witness :
    (∃ u ∈ (process_scheduled_tasks envC3 worldC3).1.sqliteTasks,
        u.id = taskC3.id) ∧
    ∀ u ∈ (process_scheduled_tasks envC3 worldC3).1.sqliteTasks,
      u.id = taskC3.id → u.status = "failed" :=
  worker_any_failure_marks_failed envC3 worldC3 taskC3 (by decide) rfl (by decide)

/-- C8: a task whose status is `'sent'` is never selected by the worker
pass (the query predicate of worker.py line 29 requires
`status = 'pending'`), so re-running the worker never attempts its email
again and the row passes through unchanged — provided no other row
shares its id (ids are a SERIAL primary key). -/
theorem worker_skips_sent_tasks (env : WorkerEnv) (w : ToolsWorld)
    (t : ScheduledTask)
    (hmem : t ∈ w.sqliteTasks)
    (hsent : t.status = "sent")
    (huniq : ∀ u ∈ w.sqliteTasks, u.id = t.id → u = t) :
    t ∉ dueTasks env w ∧
    t ∈ (process_scheduled_tasks env w).1.sqliteTasks ∧
    t.id ∉ (process_scheduled_tasks env w).2 := by
  have hnotdue : t ∉ dueTasks env w := by
    intro hdue
    have hp := (List.mem_filter.mp hdue).2
    simp [hsent] at hp
  have hids : ∀ u ∈ dueTasks env w, t.id ≠ u.id := by
    intro u hu heq
    have humem : u ∈ w.sqliteTasks := (List.mem_filter.mp hu).1
    exact hnotdue ((huniq u humem heq.symm) ▸ hu)
  refine ⟨hnotdue, ?_, ?_⟩
  · unfold process_scheduled_tasks
    by_cases h1 : (dueTasks env w).isEmpty
    · simpa [h1] using hmem
    · by_cases h2 : env.gmailServiceOk
      · simp only [h1, h2, Bool.not_true, Bool.false_eq_true, if_false]
        exact mem_foldl_applySend _ _ hmem hids
      · have hb : env.gmailServiceOk = false := by simpa using h2
        simpa [h1, hb] using hmem
  · unfold process_scheduled_tasks
    by_cases h1 : (dueTasks env w).isEmpty
    · simp [h1]
    · by_cases h2 : env.gmailServiceOk
      · simp only [h1, h2, Bool.not_true, Bool.false_eq_true, if_false]
        simp only [List.mem_map, not_exists]
        rintro u ⟨hu, heq⟩
        exact hids u hu heq.symm
      · simp [h1, h2]

/-- An already-sent task (id 3) next to a due pending one (id 4). -/
def taskC8 : ScheduledTask :=
  ⟨3, "eve@exemple.fr", "Deja envoye", "Corps", ⟨2026, 10, 10, 8, 0⟩, "sent"⟩

/-- A due pending neighbour of `taskC8`. -/
def taskC8b : ScheduledTask :=
  ⟨4, "bob@exemple.fr", "A envoyer", "Corps", ⟨2026, 10, 11, 8, 0⟩, "pending"⟩

/-- Worker environment for the idempotence witness: every send
succeeds. -/
def envC8 : WorkerEnv :=
  ⟨⟨2026, 10, 12, 10, 0⟩, true, fun _ => SendOutcome.success⟩

/-- SQLite store holding the sent task and the pending one. -/
def worldC8 : ToolsWorld := ⟨[], [taskC8, taskC8b], []⟩

/-- Witness for C8: in a pass that does process the due pending
neighbour, the `'sent'` row is not selected, not re-sent, and passes
through unchanged. -/
theorem worker_skips_sent_tasks_witness :
    taskC8 ∉ dueTasks envC8 worldC8 ∧
    taskC8 ∈ (process_scheduled_tasks envC8 worldC8).1.sqliteTasks ∧
    taskC8.id ∉ (process_scheduled_tasks envC8 worldC8).2 :=
  worker_skips_sent_tasks envC8 worldC8 taskC8 (by decide) rfl (by decide)
